import Mathlib

/-!
# Verification of the gdeltloader ingestion pipeline

A shallow embedding of `gdeltloader/gdeltloader.py` (GDELT 2.0 importer).
Machine-level details are modelled as follows:

* file contents are byte lists (`List Nat`, each element `< 256`);
* the MD5 digest (Python `hashlib.md5(...).hexdigest()`) is implemented in
  full (RFC 1321) so that checksum comparisons evaluate on concrete inputs;
* HTTP traffic is an oracle `Net : String → HttpResponse` supplied to each
  function that performs a request; every issued request is recorded as an
  `Event` so "no network request" properties are statable;
* the zip library (`zipfile.ZipFile` / `namelist` / `open`) is an oracle
  mapping archive bytes to the list of (entry name, entry bytes);
* MongoDB's `insert_one` on the `files` collection is an append to a list of
  `DownloadRecord`s; the `aggregate` pipeline of the `--mapgeo` branch is
  modelled over association-list documents;
* `print` output is collected as a list of strings (one per `print` call);
  the per-chunk progress dots of `download_file` are not modelled.

All word arithmetic is on `Nat` with explicit reduction modulo `2 ^ 32`.
-/

/-! ## 32-bit helpers -/

def mask32 : Nat := 4294967295

def add32 (a b : Nat) : Nat := (a + b) % 4294967296

def rotl32 (x n : Nat) : Nat :=
  ((x <<< n) ||| (x >>> (32 - n))) &&& mask32

/-! ## MD5 (RFC 1321), as used by `compute_md5` in the source -/

def md5ShiftTable : List Nat :=
  [7, 12, 17, 22, 7, 12, 17, 22, 7, 12, 17, 22, 7, 12, 17, 22,
   5, 9, 14, 20, 5, 9, 14, 20, 5, 9, 14, 20, 5, 9, 14, 20,
   4, 11, 16, 23, 4, 11, 16, 23, 4, 11, 16, 23, 4, 11, 16, 23,
   6, 10, 15, 21, 6, 10, 15, 21, 6, 10, 15, 21, 6, 10, 15, 21]

def md5SineTable : List Nat :=
  [0xd76aa478, 0xe8c7b756, 0x242070db, 0xc1bdceee,
   0xf57c0faf, 0x4787c62a, 0xa8304613, 0xfd469501,
   0x698098d8, 0x8b44f7af, 0xffff5bb1, 0x895cd7be,
   0x6b901122, 0xfd987193, 0xa679438e, 0x49b40821,
   0xf61e2562, 0xc040b340, 0x265e5a51, 0xe9b6c7aa,
   0xd62f105d, 0x02441453, 0xd8a1e681, 0xe7d3fbc8,
   0x21e1cde6, 0xc33707d6, 0xf4d50d87, 0x455a14ed,
   0xa9e3e905, 0xfcefa3f8, 0x676f02d9, 0x8d2a4c8a,
   0xfffa3942, 0x8771f681, 0x6d9d6122, 0xfde5380c,
   0xa4beea44, 0x4bdecfa9, 0xf6bb4b60, 0xbebfbc70,
   0x289b7ec6, 0xeaa127fa, 0xd4ef3085, 0x04881d05,
   0xd9d4d039, 0xe6db99e5, 0x1fa27cf8, 0xc4ac5665,
   0xf4292244, 0x432aff97, 0xab9423a7, 0xfc93a039,
   0x655b59c3, 0x8f0ccc92, 0xffeff47d, 0x85845dd1,
   0x6fa87e4f, 0xfe2ce6e0, 0xa3014314, 0x4e0811a1,
   0xf7537e82, 0xbd3af235, 0x2ad7d2bb, 0xeb86d391]

/-- The 16 little-endian 32-bit words of one 64-byte block. -/
def md5Words (block : List Nat) : List Nat :=
  (List.range 16).map fun j =>
    block.getD (4 * j) 0 + 256 * block.getD (4 * j + 1) 0 +
      65536 * block.getD (4 * j + 2) 0 + 16777216 * block.getD (4 * j + 3) 0

/-- One of the 64 MD5 rounds, acting on the running `(a, b, c, d)` state. -/
def md5Round (M : List Nat) (st : Nat × Nat × Nat × Nat) (i : Nat) :
    Nat × Nat × Nat × Nat :=
  let a := st.1
  let b := st.2.1
  let c := st.2.2.1
  let d := st.2.2.2
  let fg : Nat × Nat :=
    if i < 16 then ((b &&& c) ||| ((b ^^^ mask32) &&& d), i)
    else if i < 32 then ((d &&& b) ||| ((d ^^^ mask32) &&& c), (5 * i + 1) % 16)
    else if i < 48 then (b ^^^ c ^^^ d, (3 * i + 5) % 16)
    else (c ^^^ (b ||| (d ^^^ mask32)), (7 * i) % 16)
  let tmp := (fg.1 + a + md5SineTable.getD i 0 + M.getD fg.2 0) % 4294967296
  (d, add32 b (rotl32 tmp (md5ShiftTable.getD i 0)), b, c)

/-- Process one 64-byte block, updating the four-word digest state. -/
def md5Block (st : Nat × Nat × Nat × Nat) (block : List Nat) :
    Nat × Nat × Nat × Nat :=
  let M := md5Words block
  let r := (List.range 64).foldl (md5Round M) st
  (add32 st.1 r.1, add32 st.2.1 r.2.1, add32 st.2.2.1 r.2.2.1,
   add32 st.2.2.2 r.2.2.2)

/-- Process `n` consecutive 64-byte blocks taken from the front of `l`. -/
def md5Blocks (st : Nat × Nat × Nat × Nat) (l : List Nat) (n : Nat) :
    Nat × Nat × Nat × Nat :=
  match n with
  | 0 => st
  | k + 1 => md5Blocks (md5Block st (l.take 64)) (l.drop 64) k

/-- MD5 padding: `0x80`, zeros to 56 mod 64, then the bit length as 64-bit LE. -/
def md5Pad (msg : List Nat) : List Nat :=
  let len := msg.length
  let zeros := (120 - (len + 1) % 64) % 64
  msg ++ [0x80] ++ List.replicate zeros 0 ++
    (List.range 8).map fun k => ((8 * len) % 18446744073709551616) >>> (8 * k) &&& 255

/-- The four bytes of a 32-bit word, little-endian. -/
def wordBytesLE (w : Nat) : List Nat :=
  [w % 256, w / 256 % 256, w / 65536 % 256, w / 16777216 % 256]

/-- The 16 digest bytes of a message. -/
def md5Digest (msg : List Nat) : List Nat :=
  let padded := md5Pad msg
  let st := md5Blocks (0x67452301, 0xefcdab89, 0x98badcfe, 0x10325476)
    padded (padded.length / 64)
  wordBytesLE st.1 ++ wordBytesLE st.2.1 ++ wordBytesLE st.2.2.1 ++
    wordBytesLE st.2.2.2

def hexChar (n : Nat) : Char :=
  if n < 10 then Char.ofNat (48 + n) else Char.ofNat (87 + n)

/-- Lowercase hex rendering of a byte list, two digits per byte. -/
def bytesToHex (bs : List Nat) : String :=
  String.mk (bs.foldr (fun b acc => hexChar (b / 16) :: hexChar (b % 16) :: acc) [])

/-- `compute_md5` from the source: read the whole file and return
`hashlib.md5(buf).hexdigest()` (a lowercase-hex string).  The caller passes the
file's bytes; the `open`/`read` of the original is the `fsLookup` at each call
site. -/
def compute_md5 (content : List Nat) : String :=
  bytesToHex (md5Digest content)

/-! ## UTF-8, as used by `bytes.decode("utf-8")` / text-mode writes -/

def utf8Cont (b : Nat) : Bool := 0x80 ≤ b && b ≤ 0xBF

/-- Strict UTF-8 decoding of a byte list to code points, rejecting overlong
forms, surrogates and values above `0x10FFFF`, like Python's strict
`decode("utf-8")`.  Returns `none` exactly when Python raises
`UnicodeDecodeError`. -/
def utf8DecodeCore : List Nat → Option (List Nat)
  | [] => some []
  | b :: r =>
    if b ≤ 0x7F then (utf8DecodeCore r).map (b :: ·)
    else if 0xC2 ≤ b && b ≤ 0xDF then
      match r with
      | c1 :: r1 =>
        if utf8Cont c1 then
          (utf8DecodeCore r1).map (((b - 0xC0) * 64 + (c1 - 0x80)) :: ·)
        else none
      | [] => none
    else if 0xE0 ≤ b && b ≤ 0xEF then
      match r with
      | c1 :: c2 :: r2 =>
        let lo := if b = 0xE0 then 0xA0 else 0x80
        let hi := if b = 0xED then 0x9F else 0xBF
        if lo ≤ c1 && c1 ≤ hi && utf8Cont c2 then
          (utf8DecodeCore r2).map
            (((b - 0xE0) * 4096 + (c1 - 0x80) * 64 + (c2 - 0x80)) :: ·)
        else none
      | _ => none
    else if 0xF0 ≤ b && b ≤ 0xF4 then
      match r with
      | c1 :: c2 :: c3 :: r3 =>
        let lo := if b = 0xF0 then 0x90 else 0x80
        let hi := if b = 0xF4 then 0x8F else 0xBF
        if lo ≤ c1 && c1 ≤ hi && utf8Cont c2 && utf8Cont c3 then
          (utf8DecodeCore r3).map
            (((b - 0xF0) * 262144 + (c1 - 0x80) * 4096 + (c2 - 0x80) * 64 +
              (c3 - 0x80)) :: ·)
        else none
      | _ => none
    else none

/-- Decode bytes to a `String` (`none` on a strict-UTF-8 decoding error). -/
def utf8Decode (bs : List Nat) : Option String :=
  (utf8DecodeCore bs).map fun cps => String.mk (cps.map Char.ofNat)

def utf8Valid (bs : List Nat) : Bool := (utf8Decode bs).isSome

/-- Encode one code point as UTF-8 bytes. -/
def utf8EncodeChar (c : Nat) : List Nat :=
  if c < 0x80 then [c]
  else if c < 0x800 then [0xC0 + c / 64, 0x80 + c % 64]
  else if c < 0x10000 then [0xE0 + c / 4096, 0x80 + c / 64 % 64, 0x80 + c % 64]
  else [0xF0 + c / 262144, 0x80 + c / 4096 % 64, 0x80 + c / 64 % 64, 0x80 + c % 64]

/-- The UTF-8 bytes of a string (used to build concrete file contents). -/
def strBytes (s : String) : List Nat :=
  s.data.foldr (fun c acc => utf8EncodeChar c.toNat ++ acc) []

/-! ## Environment model: filesystem, HTTP, observable events -/

/-- The working directory: an association list from file name to content
bytes.  A write prepends, so `fsLookup` returns the most recent content. -/
abbrev FS := List (String × List Nat)

def fsLookup (fs : FS) (name : String) : Option (List Nat) :=
  match fs with
  | [] => none
  | (k, v) :: rest => if k = name then some v else fsLookup rest name

def fsWrite (fs : FS) (name : String) (content : List Nat) : FS :=
  (name, content) :: fs

def fsExists (fs : FS) (name : String) : Bool :=
  (fsLookup fs name).isSome

/-- An HTTP response: status code and body bytes.  `requests` semantics:
`raise_for_status` raises exactly when the status is `400 ≤ s`. -/
structure HttpResponse where
  status : Nat
  body : List Nat
deriving DecidableEq, Repr

/-- The network oracle: what `requests.get` returns for each URL. -/
abbrev Net := String → HttpResponse

/-- Observable side effects other than prints and file writes.  Only network
requests are needed by the claims. -/
inductive Event where
  | httpGet (url : String)
deriving DecidableEq, Repr

/-- The zip-library oracle: `zipfile.ZipFile(...)` + `namelist` + per-entry
`open`/read, as a map from archive bytes to entries; `none` models
`zipfile.BadZipFile`. -/
abbrev ZipLib := List Nat → Option (List (String × List Nat))

/-- A fatal (uncaught) Python exception: the run terminates with it. -/
inductive Fatal where
  | transfer (status : Nat)
  | badParse (line : String)
  | decodeErr (what : String)
  | badZip (file : String)
deriving DecidableEq, Repr

/-- One document of the `files` collection (`insert_one` at lines 159-163). -/
structure DownloadRecord where
  ts : String
  remote : String
  local_file : String
  size : Nat
  md5 : String
deriving DecidableEq, Repr

/-! ## The source's helper functions -/

/-- Split a character list at every occurrence of `sep`, keeping empty
fields, like Python `str.split(sep)` with an explicit separator. -/
def splitCharsAux (sep : Char) (cur : List Char) : List Char → List (List Char)
  | [] => [cur.reverse]
  | c :: rest =>
    if c = sep then cur.reverse :: splitCharsAux sep [] rest
    else splitCharsAux sep (c :: cur) rest

def splitOnChar (s : String) (sep : Char) : List String :=
  (splitCharsAux sep [] s.data).map String.mk

/-- `local_path` (line 27-28): `url.split('/')[-1]`.  Python `str.split('/')`
returns a nonempty list even for the empty string, and `[-1]` is its last
element. -/
def local_path (url : String) : String :=
  (splitOnChar url '/').getLastD ""

/-- `download_file` (lines 30-45): derive the local name, issue the GET, and
either fail with `TransferError` before anything is written (`raise_for_status`
precedes the `open`) or stream the body into the local file.  The chunked
write is content-equivalent to writing the whole body; progress dots are not
modelled.  Returns the updated filesystem and either the status code of the
failure or the local file name. -/
def download_file (net : Net) (fs : FS) (url : String) : FS × Except Nat String :=
  let local_filename := local_path url
  let r := net url
  if r.status < 400 then
    (fsWrite fs local_filename r.body, Except.ok local_filename)
  else
    (fs, Except.error r.status)

/-- The manifest fetch of the main script (lines 134-138):
`r = requests.get(url, allow_redirects=True)` followed by
`open(filename, 'w').write(r.content.decode("utf-8"))`.  No status check is
performed: the body is decoded and written whatever the status code; the only
failure is a `UnicodeDecodeError`.  Writing the decoded text back in UTF-8
yields the original bytes, so the file receives `r.body`. -/
def manifestDownload (net : Net) (fs : FS) (url filename : String) :
    FS × Option Fatal :=
  let r := net url
  if utf8Valid r.body then
    (fsWrite fs filename r.body, none)
  else
    (fs, some (Fatal.decodeErr filename))

/-- The per-entry body of `extract_zip_file`'s loop (lines 50-55): decode each
entry's bytes as UTF-8 and write them under the entry's name; a decoding
failure is a fatal `UnicodeDecodeError` (files already written stay written).
For valid UTF-8 the text written back equals the original bytes. -/
def extractEntries (fs : FS) : List (String × List Nat) → FS × List String × Option Fatal
  | [] => (fs, [], none)
  | (finfo, bs) :: rest =>
    if utf8Valid bs then
      let r := extractEntries (fsWrite fs finfo bs) rest
      (r.1, finfo :: r.2.1, r.2.2)
    else
      (fs, [], some (Fatal.decodeErr finfo))

/-- `extract_zip_file` (lines 47-57): open the archive named `filepath` from
the working directory and extract every entry.  A missing file or an archive
the zip library rejects is fatal. -/
def extract_zip_file (zipOpen : ZipLib) (fs : FS) (filepath : String) :
    FS × List String × Option Fatal :=
  match fsLookup fs filepath with
  | none => (fs, [], some (Fatal.badZip filepath))
  | some content =>
    match zipOpen content with
    | none => (fs, [], some (Fatal.badZip filepath))
    | some entries => extractEntries fs entries

/-! ## The download loop (lines 140-173) -/

/-- Mutable state threaded through the download loop: the working directory,
the `files` collection (in insertion order), everything printed so far, the
recorded events, and the clock value used for inserted timestamps. -/
structure LoopState where
  fs : FS
  records : List DownloadRecord
  output : List String
  events : List Event
  now : String
deriving DecidableEq, Repr

def isPyWs (c : Char) : Bool :=
  c = ' ' || c = '\t' || c = '\n' || c = '\r' || c = '\x0b' || c = '\x0c'

/-- Split a character list on whitespace runs, keeping only the non-empty
fields in between. -/
def splitWsChars (cur : List Char) : List Char → List (List Char)
  | [] => if cur = [] then [] else [cur.reverse]
  | c :: rest =>
    if isPyWs c then
      if cur = [] then splitWsChars [] rest
      else cur.reverse :: splitWsChars [] rest
    else splitWsChars (c :: cur) rest

/-- Python `str.split()` with no argument: split on whitespace runs,
discarding empty fields. -/
def splitWs (s : String) : List String :=
  (splitWsChars [] s.data).map String.mk

/-- Python `int(s)` on the decimal size field.  Manifest sizes are plain
digit strings; signed or whitespace-padded forms (which `int` also accepts)
do not occur and are not modelled.  `none` models `ValueError`. -/
def parseSize (s : String) : Option Nat :=
  if s.data ≠ [] && s.data.all (fun c => ('0').toNat ≤ c.toNat && c.toNat ≤ ('9').toNat) then
    some (s.data.foldl (fun acc c => 10 * acc + (c.toNat - ('0').toNat)) 0)
  else none

/-- Lines 147-155: ensure the entry's archive is present locally.  Returns the
updated state and either the failing status (`TransferError` inside
`download_file`) or the local file name together with whether it was freshly
downloaded (`else` branch) rather than reused (`if` branch). -/
def fetchStep (net : Net) (ov : Bool) (size : Nat) (md5 zip : String)
    (st : LoopState) : LoopState × Except Nat (String × Bool) :=
  let lp := local_path zip
  if fsExists st.fs lp && !ov then
    ({ st with output := st.output ++ ["File '" ++ lp ++ "'exists locally"] },
     Except.ok (lp, false))
  else
    let st1 := { st with
      output := st.output ++
        ["Downloading:'" ++ zip ++ "'", "size:" ++ toString size, "md5:" ++ md5]
      events := st.events ++ [Event.httpGet zip] }
    match download_file net st1.fs zip with
    | (fs1, Except.ok local_zip_file) =>
      ({ st1 with
         fs := fs1
         output := st1.output ++ ["created: '" ++ local_zip_file ++ "'"] },
       Except.ok (local_zip_file, true))
    | (_, Except.error status) => (st1, Except.error status)

/-- Lines 168-173: print the unzip banner, extract, and on success run the
dead `for i in local_csv_files: print(l)` loop, which prints the raw manifest
line once per extracted file. -/
def extractPhase (zipOpen : ZipLib) (st : LoopState) (local_zip_file l : String) :
    LoopState × Option Fatal :=
  let st1 := { st with
    output := st.output ++ ["Unzipping: '" ++ local_zip_file ++ "'"] }
  match extract_zip_file zipOpen st.fs local_zip_file with
  | (fs1, names, none) =>
    ({ st1 with fs := fs1, output := st1.output ++ names.map fun _ => l }, none)
  | (fs1, _, some e) => ({ st1 with fs := fs1 }, some e)

/-- One iteration of `for l in file_list` (lines 142-173).  The returned
`Option Fatal` is `some e` when the iteration raised an uncaught exception
(ending the whole run with the state reached so far); `none` means control
reaches the next line, which covers both normal completion and the
checksum-mismatch `continue`. -/
def processLine (net : Net) (zipOpen : ZipLib) (ov : Bool) (st : LoopState)
    (l : String) : LoopState × Option Fatal :=
  match splitWs l with
  | [sizeStr, md5, zip] =>
    match parseSize sizeStr with
    | none => (st, some (Fatal.badParse l))
    | some size =>
      match fetchStep net ov size md5 zip st with
      | (st1, Except.error status) => (st1, some (Fatal.transfer status))
      | (st1, Except.ok (local_zip_file, fresh)) =>
        if fresh then
          let computed_md5 := compute_md5 ((fsLookup st1.fs local_zip_file).getD [])
          if computed_md5 = md5 then
            let st2 := { st1 with records := st1.records ++
              [{ ts := st1.now, remote := zip, local_file := local_zip_file,
                 size := size, md5 := md5 }] }
            extractPhase zipOpen st2 local_zip_file l
          else
            ({ st1 with output := st1.output ++
              ["'" ++ md5 ++ "' checksum for doesn't match computed checksum: " ++
               computed_md5 ++ " for " ++ local_zip_file] }, none)
        else
          extractPhase zipOpen st1 local_zip_file l
  | _ => (st, some (Fatal.badParse l))

/-- The whole `for l in file_list` loop: process lines in order, stopping at
the first fatal exception. -/
def runLoop (net : Net) (zipOpen : ZipLib) (ov : Bool) (st : LoopState) :
    List String → LoopState × Option Fatal
  | [] => (st, none)
  | l :: rest =>
    match processLine net zipOpen ov st l with
    | (st1, none) => runLoop net zipOpen ov st1 rest
    | (st1, some e) => (st1, some e)



/-! ## The `--mapgeo` branch (lines 105-118) -/

/-- BSON-ish values, enough for the documents the pipeline manipulates.  The
`double` payload stands for the stored floating-point value; the pipeline only
type-tests and copies it, never computes with it, so an opaque carrier is
faithful. -/
inductive BVal where
  | double (x : Int)
  | intVal (n : Int)
  | str (s : String)
  | arr (elems : List BVal)
  | doc (fields : List (String × BVal))

/-- A document: ordered fields with distinct names (MongoDB documents). -/
abbrev GDoc := List (String × BVal)

def lookupField (d : GDoc) (k : String) : Option BVal :=
  match d with
  | [] => none
  | (k1, v) :: rest => if k1 = k then some v else lookupField rest k

/-- Does a `{"$type": "double"}` query condition hold for this (optional)
field value?  Models the BSON `double` type test on a non-array field. -/
def isDouble : Option BVal → Bool
  | some (BVal.double _) => true
  | _ => false

/-- The six field names of the `$match` stage, exactly as in the source
(note `Actor2Geo_lat` with a lowercase l). -/
def geoMatchFields : List String :=
  ["ActionGeo_Lat", "ActionGeo_Lon", "Actor1Geo_Lat", "Actor1Geo_Lon",
   "Actor2Geo_lat", "Actor2Geo_Lon"]

/-- The `$match` stage (lines 107-112): every one of the six geo fields must
be present with BSON type `double`. -/
def matchStage (d : GDoc) : Bool :=
  geoMatchFields.all fun f => isDouble (lookupField d f)

/-- A MongoDB aggregation array expression: field paths that resolve to
missing contribute no element. -/
def arrOfPresent (xs : List (Option BVal)) : BVal :=
  BVal.arr (xs.filterMap id)

/-- One injected point geometry: `{"type": "Point", "coordinates":
["$<lonField>", "$<latField>"]}`, both paths read from the input document. -/
def pointOf (d : GDoc) (lonField latField : String) : BVal :=
  BVal.doc [("type", BVal.str ("Point")),
            ("coordinates", arrOfPresent [lookupField d lonField, lookupField d latField])]

/-- `$addFields` semantics for one field: replace in place when present,
append otherwise. -/
def setField (d : GDoc) (k : String) (v : BVal) : GDoc :=
  if (lookupField d k).isSome then
    d.map fun kv => if kv.1 = k then (k, v) else kv
  else d ++ [(k, v)]

/-- The `$addFields` stage (lines 114-116): all three point expressions are
evaluated against the input document `d`, reading the `*_Long`/`*_Lat`
fields, then added. -/
def addStage (d : GDoc) : GDoc :=
  setField (setField (setField d ("Actor1Geo") (pointOf d ("Actor1Geo_Long") ("Actor1Geo_Lat")))
      ("Actor2Geo") (pointOf d ("Actor2Geo_Long") ("Actor2Geo_Lat")))
    ("ActionGeo") (pointOf d ("ActionGeo_Long") ("ActionGeo_Lat"))

/-- The `$out` stage's target collection name, exactly as written at
line 117: the string literal `"events_geo"`. -/
def geoOutCollection : String := "events_geo"

/-- The three-stage pipeline `[matcher, adder, {"$out": "events_geo"}]` run
over the configured events collection: filter, then add fields, and the
result set together with the collection `$out` overwrites. -/
def runMapgeoAggregate (events : List GDoc) : String × List GDoc :=
  (geoOutCollection, (events.filter matchStage).map addStage)

/-! ## The top-level script (lines 60-173) -/

/-- Parsed command-line arguments with the argparse defaults (lines 62-93).
`local_file` is the `--local` option. -/
structure Args where
  mongodb : String := "mongodb://localhost:27017"
  ziplist : String := "incremental"
  master : String := "http://data.gdeltproject.org/gdeltv2/masterfilelist.txt"
  incremental : String := "http://data.gdeltproject.org/gdeltv2/lastupdate.txt"
  database : String := "GDELT"
  collection : String := "events"
  local_file : Option String := none
  overwrite : Bool := false
  download : Bool := false
  mapgeo : Bool := false

/-- How the run ended: falling off the end of the script (`exit 0`),
`sys.exit(1)` for a missing `--local` path, or an uncaught exception
(Python terminates those with exit code 1 as well). -/
inductive ExitStatus where
  | normal
  | missingLocal
  | fatalErr (e : Fatal)
deriving DecidableEq, Repr

/-- The process exit code of each outcome. -/
def exitCode : ExitStatus → Nat
  | ExitStatus.normal => 0
  | ExitStatus.missingLocal => 1
  | ExitStatus.fatalErr _ => 1

/-- Everything observable about one invocation. -/
structure MainResult where
  status : ExitStatus
  fs : FS
  records : List DownloadRecord
  output : List String
  events : List Event
  geoWritten : Option (String × List GDoc)

/-- Python text-file line iteration: split on newlines; a trailing newline
does not produce a final empty line.  (Our lines drop the trailing `'\n'`
that Python keeps; the loop's `l.split()` is insensitive to it, and only the
dead `print(l)` sees it.) -/
def pyLines (s : String) : List String :=
  let parts := splitOnChar s '\n'
  if parts.getLast? = some "" then parts.dropLast else parts

/-- Lines 140-173: the `if args.download` tail of the script, given the
resolved manifest file name and the state accumulated so far. -/
def downloadPhase (net : Net) (zipOpen : ZipLib) (now : String) (args : Args)
    (filename : String) (fs : FS) (out : List String) (events : List Event) :
    MainResult :=
  if args.download then
    match utf8Decode ((fsLookup fs filename).getD []) with
    | none =>
      { status := ExitStatus.fatalErr (Fatal.decodeErr filename), fs := fs,
        records := [], output := out, events := events, geoWritten := none }
    | some text =>
      let st0 : LoopState :=
        { fs := fs, records := [], output := out, events := events, now := now }
      let r := runLoop net zipOpen args.overwrite st0 (pyLines text)
      { status := match r.2 with
          | none => ExitStatus.normal
          | some e => ExitStatus.fatalErr e
        fs := r.1.fs, records := r.1.records, output := r.1.output,
        events := r.1.events, geoWritten := none }
  else
    { status := ExitStatus.normal, fs := fs, records := [], output := out,
      events := events, geoWritten := none }

/-- One whole invocation (lines 95-173).  `now` stands for the
`datetime.utcnow()` timestamp string, `eventsDocs` for the pre-existing
contents of the configured events collection, `fs0` for the working
directory at startup.  The `files` collection starts empty in `records`;
only appends performed by this run are modelled. -/
def runMain (net : Net) (zipOpen : ZipLib) (now : String)
    (eventsDocs : List GDoc) (fs0 : FS) (args : Args) : MainResult :=
  if args.mapgeo then
    { status := ExitStatus.normal, fs := fs0, records := [],
      output := ["Mapping lat/lon to GeoJSON"], events := [],
      geoWritten := some (runMapgeoAggregate eventsDocs) }
  else
    match args.local_file with
    | some p =>
      if fsExists fs0 p then
        downloadPhase net zipOpen now args p fs0 [] []
      else
        { status := ExitStatus.missingLocal, fs := fs0, records := [],
          output := ["'" ++ p ++ "' does not exist"], events := [],
          geoWritten := none }
    | none =>
      let url := if args.ziplist = "master" then args.master else args.incremental
      let msg := if args.ziplist = "master"
        then "Getting incremental file from '" ++ url ++ "'"
        else "Getting master file from '" ++ url ++ "'"
      let filename := "gdelt_" ++ args.ziplist ++ "-file-" ++ now ++ ".txt"
      let out := [msg, "Creating local master file: '" ++ filename ++ "'"]
      let events := [Event.httpGet url]
      match manifestDownload net fs0 url filename with
      | (fs1, none) => downloadPhase net zipOpen now args filename fs1 out events
      | (_, some e) =>
        { status := ExitStatus.fatalErr e, fs := fs0, records := [],
          output := out, events := events, geoWritten := none }

/-! ## Spec-side definitions (for refinement comparisons only) -/

def asciiLowerChar (c : Char) : Char :=
  if ('A').toNat ≤ c.toNat && c.toNat ≤ ('Z').toNat then Char.ofNat (c.toNat + 32) else c

/-- Modelled from the spec's words, not the source: "accept it when checksums
match case-insensitively" — case-insensitive equality of (hex) strings,
realised as equality after ASCII lowercasing. -/
def hexEqCaseInsensitive (a b : String) : Bool :=
  a.data.map asciiLowerChar = b.data.map asciiLowerChar

/-- Modelled from the spec's words, not the source: "all six geo fields are
present with a floating-point numeric type". -/
def specGeoFilter (d : GDoc) : Bool :=
  isDouble (lookupField d ("ActionGeo_Lat")) &&
  isDouble (lookupField d ("ActionGeo_Lon")) &&
  isDouble (lookupField d ("Actor1Geo_Lat")) &&
  isDouble (lookupField d ("Actor1Geo_Lon")) &&
  isDouble (lookupField d ("Actor2Geo_lat")) &&
  isDouble (lookupField d ("Actor2Geo_Lon"))

/-! ## Basic lemmas -/

theorem fsLookup_fsWrite (fs : FS) (n : String) (c : List Nat) :
    fsLookup (fsWrite fs n c) n = some c := by
  simp [fsWrite, fsLookup]

theorem extractPhase_records (zipOpen : ZipLib) (st : LoopState) (lp l : String) :
    (extractPhase zipOpen st lp l).1.records = st.records := by
  rcases hE : extract_zip_file zipOpen st.fs lp with ⟨fs1, names, err⟩
  cases err <;> simp [extractPhase, hE]

theorem extractPhase_events (zipOpen : ZipLib) (st : LoopState) (lp l : String) :
    (extractPhase zipOpen st lp l).1.events = st.events := by
  rcases hE : extract_zip_file zipOpen st.fs lp with ⟨fs1, names, err⟩
  cases err <;> simp [extractPhase, hE]

theorem extractPhase_output_mem (zipOpen : ZipLib) (st : LoopState) (lp l : String) :
    ("Unzipping: '" ++ lp ++ "'") ∈ (extractPhase zipOpen st lp l).1.output := by
  rcases hE : extract_zip_file zipOpen st.fs lp with ⟨fs1, names, err⟩
  cases err <;> simp [extractPhase, hE]

/-! ## Claim C1 -/

/-- Claim C1: for every manifest entry processed by the download loop, a
`DownloadRecord` is inserted into the `files` collection only when the
checksum computed over the local archive's content equals the
manifest-declared checksum; when they differ, no record is inserted, the
archive file is left on disk (the working directory gains exactly the
downloaded archive), and that entry's extraction is skipped (the iteration
ends without touching the archive further, continuing the loop). -/
theorem C1_record_only_on_checksum_match
    (net : Net) (zipOpen : ZipLib) (ov : Bool) (st : LoopState)
    (l sizeStr md5 zip : String) (size : Nat)
    (hsplit : splitWs l = [sizeStr, md5, zip])
    (hsize : parseSize sizeStr = some size) :
    ((processLine net zipOpen ov st l).1.records ≠ st.records →
      (fsExists st.fs (local_path zip) && !ov) = false ∧
      (net zip).status < 400 ∧
      compute_md5 (net zip).body = md5) ∧
    ((fsExists st.fs (local_path zip) && !ov) = false →
      (net zip).status < 400 →
      compute_md5 (net zip).body ≠ md5 →
      (processLine net zipOpen ov st l).1.records = st.records ∧
      (processLine net zipOpen ov st l).1.fs = fsWrite st.fs (local_path zip) (net zip).body ∧
      fsLookup (processLine net zipOpen ov st l).1.fs (local_path zip) = some (net zip).body ∧
      (processLine net zipOpen ov st l).2 = none) := by
  constructor
  · intro hrec
    by_cases hb : (fsExists st.fs (local_path zip) && !ov) = true
    · exfalso
      exact hrec (by simp [processLine, hsplit, hsize, fetchStep, hb, extractPhase_records])
    · have hb0 : (fsExists st.fs (local_path zip) && !ov) = false := by
        cases h2 : (fsExists st.fs (local_path zip) && !ov) <;> simp_all
      refine ⟨hb0, ?_⟩
      by_cases hok : (net zip).status < 400
      · refine ⟨hok, ?_⟩
        by_cases hmd : compute_md5 (net zip).body = md5
        · exact hmd
        · exfalso
          exact hrec (by
            simp [processLine, hsplit, hsize, fetchStep, hb0, download_file, hok,
              fsLookup_fsWrite, hmd])
      · exfalso
        exact hrec (by
          simp [processLine, hsplit, hsize, fetchStep, hb0, download_file, hok])
  · intro hb0 hok hmd
    refine ⟨?_, ?_, ?_, ?_⟩ <;>
      simp [processLine, hsplit, hsize, fetchStep, hb0, download_file, hok,
        fsLookup_fsWrite, hmd]

set_option maxRecDepth 1000000 in
/-- Witness for C1 at a concrete input: a fresh download whose body `[1]` has
MD5 `55a54008ad1ba589aa210d2629c1df41`, against a manifest checksum of all
zeros: no record is inserted and the loop continues. -/
theorem C1_record_only_on_checksum_match_witness :
    (processLine (fun _ => { status := 200, body := [1] }) (fun _ => some []) false
        { fs := [], records := [], output := [], events := [], now := "T" }
        ("1 00000000000000000000000000000000 http://e.org/f.zip")).1.records = [] ∧
    (processLine (fun _ => { status := 200, body := [1] }) (fun _ => some []) false
        { fs := [], records := [], output := [], events := [], now := "T" }
        ("1 00000000000000000000000000000000 http://e.org/f.zip")).2 = none := by
  have h := C1_record_only_on_checksum_match (fun _ => { status := 200, body := [1] })
    (fun _ => some []) false { fs := [], records := [], output := [], events := [], now := "T" }
    ("1 00000000000000000000000000000000 http://e.org/f.zip") ("1")
    ("00000000000000000000000000000000") ("http://e.org/f.zip") 1 (by decide) (by decide)
  have h2 := h.2 (by decide) (by decide) (by decide)
  exact ⟨h2.1, h2.2.2.2⟩

/-! ## Claim C2 -/

set_option maxRecDepth 1000000 in
/-- Claim C2 as stated is false: the source compares
`computed_md5 == md5` exactly (line 158), and `hexdigest` is lowercase hex,
so an uppercase manifest checksum that matches case-insensitively is still
rejected.  Concretely, for an empty downloaded archive (digest
`d41d8cd98f00b204e9800998ecf8427e`) against the manifest checksum
`D41D8CD98F00B204E9800998ECF8427E` the two are case-insensitively equal, yet
no record is inserted and the entry is skipped with a mismatch warning. -/
theorem C2_counterexample :
    hexEqCaseInsensitive (compute_md5 ([])) ("D41D8CD98F00B204E9800998ECF8427E") = true ∧
    (processLine (fun _ => { status := 200, body := [] }) (fun _ => some []) false
        { fs := [], records := [], output := [], events := [], now := "T" }
        ("0 D41D8CD98F00B204E9800998ECF8427E http://e.org/f.zip")).1.records = [] ∧
    (processLine (fun _ => { status := 200, body := [] }) (fun _ => some []) false
        { fs := [], records := [], output := [], events := [], now := "T" }
        ("0 D41D8CD98F00B204E9800998ECF8427E http://e.org/f.zip")).2 = none ∧
    ("'D41D8CD98F00B204E9800998ECF8427E' checksum for doesn't match computed checksum: d41d8cd98f00b204e9800998ecf8427e for f.zip") ∈
      (processLine (fun _ => { status := 200, body := [] }) (fun _ => some []) false
        { fs := [], records := [], output := [], events := [], now := "T" }
        ("0 D41D8CD98F00B204E9800998ECF8427E http://e.org/f.zip")).1.output := by
  refine ⟨by decide, by decide, by decide, by decide⟩

/-- Claim C2 amended: the verifier accepts (and the `DownloadRecord` insert
happens) exactly when the computed lowercase-hex digest equals the expected
checksum by exact, case-sensitive string comparison; any difference,
including a case-only difference, causes rejection (skip, no record
insert). -/
theorem C2_verifier_exact_equality
    (net : Net) (zipOpen : ZipLib) (ov : Bool) (st : LoopState)
    (l sizeStr md5 zip : String) (size : Nat)
    (hsplit : splitWs l = [sizeStr, md5, zip])
    (hsize : parseSize sizeStr = some size)
    (hdl : (fsExists st.fs (local_path zip) && !ov) = false)
    (hok : (net zip).status < 400) :
    (compute_md5 (net zip).body = md5 →
      (processLine net zipOpen ov st l).1.records = st.records ++
        [{ ts := st.now, remote := zip, local_file := local_path zip,
           size := size, md5 := md5 }]) ∧
    (compute_md5 (net zip).body ≠ md5 →
      (processLine net zipOpen ov st l).1.records = st.records) := by
  constructor
  · intro hmd
    simp [processLine, hsplit, hsize, fetchStep, hdl, download_file, hok,
      fsLookup_fsWrite, hmd, extractPhase_records]
  · intro hmd
    simp [processLine, hsplit, hsize, fetchStep, hdl, download_file, hok,
      fsLookup_fsWrite, hmd]

set_option maxRecDepth 1000000 in
/-- Witness for the amended C2 at a concrete input: the empty body's digest
written in lowercase is accepted and recorded. -/
theorem C2_verifier_exact_equality_witness :
    (processLine (fun _ => { status := 200, body := [] }) (fun _ => some []) false
        { fs := [], records := [], output := [], events := [], now := "T" }
        ("0 d41d8cd98f00b204e9800998ecf8427e http://e.org/f.zip")).1.records =
      [{ ts := "T", remote := "http://e.org/f.zip", local_file := "f.zip",
         size := 0, md5 := "d41d8cd98f00b204e9800998ecf8427e" }] := by
  have h := C2_verifier_exact_equality (fun _ => { status := 200, body := [] })
    (fun _ => some []) false { fs := [], records := [], output := [], events := [], now := "T" }
    ("0 d41d8cd98f00b204e9800998ecf8427e http://e.org/f.zip") ("0")
    ("d41d8cd98f00b204e9800998ecf8427e") ("http://e.org/f.zip") 0
    (by decide) (by decide) (by decide) (by decide)
  have h1 := h.1 (by decide)
  simpa using h1

/-! ## Claim C3 -/

/-- Claim C3 as stated is false for the manifest fetch: line 134 issues
`requests.get(url, allow_redirects=True)` with no `raise_for_status`, and
line 138 writes the response body to the local manifest file whatever the
status.  Concretely, a 404 response with body `"Not Found"` is written to
`m.txt` and no `TransferError` is raised. -/
theorem C3_counterexample :
    (manifestDownload (fun _ => { status := 404, body := strBytes ("Not Found") })
        [] ("http://data.example.org/masterfilelist.txt") ("m.txt")) =
      ([(("m.txt"), strBytes ("Not Found"))], none) := by
  decide

/-- Claim C3 amended: a non-success (≥ 400) HTTP response raises a fatal
`TransferError` before any response bytes are written only when downloading
an archive (`download_file`, whose `raise_for_status` precedes the file
open); the manifest fetch performs no status check and writes the decoded
response body to the manifest file regardless of the status code. -/
theorem C3_transfer_error_archives_only
    (net : Net) (fs : FS) (url filename : String)
    (hbad : 400 ≤ (net url).status) :
    download_file net fs url = (fs, Except.error (net url).status) ∧
    (utf8Valid (net url).body = true →
      manifestDownload net fs url filename = (fsWrite fs filename (net url).body, none)) := by
  constructor
  · simp [download_file, Nat.not_lt.mpr hbad]
  · intro hv
    simp [manifestDownload, hv]

/-- Witness for the amended C3 at a concrete input: a 500 response leaves the
filesystem untouched and fails the archive download, while the manifest
fetch writes the body. -/
theorem C3_transfer_error_archives_only_witness :
    download_file (fun _ => { status := 500, body := [65] }) []
        ("http://e.org/a.zip") = ([], Except.error 500) ∧
    manifestDownload (fun _ => { status := 500, body := [65] }) []
        ("http://e.org/a.zip") ("m.txt") = ([(("m.txt"), [65])], none) := by
  have h := C3_transfer_error_archives_only (fun _ => { status := 500, body := [65] })
    [] ("http://e.org/a.zip") ("m.txt") (by decide)
  exact ⟨h.1, h.2 (by decide)⟩

/-! ## Lemmas about document field update -/

theorem lookupField_append (d1 d2 : GDoc) (k : String) :
    lookupField (d1 ++ d2) k = (lookupField d1 k).or (lookupField d2 k) := by
  induction d1 with
  | nil => simp [lookupField]
  | cons kv rest ih =>
    obtain ⟨k1, v1⟩ := kv
    by_cases hk : k1 = k
    · simp [lookupField, hk]
    · simp [lookupField, hk, ih]

theorem lookupField_map_set (d : GDoc) (k : String) (v : BVal)
    (h : (lookupField d k).isSome = true) :
    lookupField (d.map fun kv => if kv.1 = k then (k, v) else kv) k = some v := by
  induction d with
  | nil => simp [lookupField] at h
  | cons kv rest ih =>
    obtain ⟨k1, v1⟩ := kv
    rw [List.map_cons]
    by_cases hk : k1 = k
    · have hhead : (if ((k1, v1) : String × BVal).1 = k then ((k, v) : String × BVal)
          else (k1, v1)) = ((k, v) : String × BVal) := by simp [hk]
      rw [hhead]
      simp [lookupField]
    · have hhead : (if ((k1, v1) : String × BVal).1 = k then ((k, v) : String × BVal)
          else (k1, v1)) = ((k1, v1) : String × BVal) := by simp [hk]
      rw [hhead]
      have h2 : (lookupField rest k).isSome = true := by
        simpa [lookupField, hk] using h
      simp [lookupField, hk, ih h2]

theorem lookupField_map_set_ne (d : GDoc) (k2 : String) (v : BVal) (k : String)
    (h : k2 ≠ k) :
    lookupField (d.map fun kv => if kv.1 = k2 then (k2, v) else kv) k =
      lookupField d k := by
  induction d with
  | nil => simp [lookupField]
  | cons kv rest ih =>
    obtain ⟨k1, v1⟩ := kv
    rw [List.map_cons]
    by_cases hk2 : k1 = k2
    · have hhead : (if ((k1, v1) : String × BVal).1 = k2 then ((k2, v) : String × BVal)
          else (k1, v1)) = ((k2, v) : String × BVal) := by simp [hk2]
      rw [hhead]
      have hk1k : k1 ≠ k := by rw [hk2]; exact h
      simp [lookupField, h, hk1k, ih]
    · have hhead : (if ((k1, v1) : String × BVal).1 = k2 then ((k2, v) : String × BVal)
          else (k1, v1)) = ((k1, v1) : String × BVal) := by simp [hk2]
      rw [hhead]
      by_cases hk : k1 = k
      · simp [lookupField, hk]
      · simp [lookupField, hk, ih]

theorem lookupField_setField_self (d : GDoc) (k : String) (v : BVal) :
    lookupField (setField d k v) k = some v := by
  unfold setField
  by_cases h : (lookupField d k).isSome
  · rw [if_pos h]
    exact lookupField_map_set d k v h
  · rw [if_neg h, lookupField_append]
    have h0 : lookupField d k = none := by
      cases h2 : lookupField d k <;> simp_all
    simp [h0, lookupField]

theorem lookupField_setField_ne (d : GDoc) (k2 : String) (v : BVal) (k : String)
    (h : k2 ≠ k) :
    lookupField (setField d k2 v) k = lookupField d k := by
  unfold setField
  by_cases h2 : (lookupField d k2).isSome
  · rw [if_pos h2]
    exact lookupField_map_set_ne d k2 v k h
  · rw [if_neg h2, lookupField_append]
    have : lookupField [(k2, v)] k = none := by simp [lookupField, h]
    rw [this]
    cases lookupField d k <;> rfl

/-! ## Claim C4 -/

/-- An event document that has five of the six filtered geo fields as
doubles but is missing `Actor2Geo_lat`. -/
def missingActor2LatDoc : GDoc :=
  [(("ActionGeo_Lat"), BVal.double 1), (("ActionGeo_Lon"), BVal.double 2),
   (("Actor1Geo_Lat"), BVal.double 3), (("Actor1Geo_Lon"), BVal.double 4),
   (("Actor2Geo_Lon"), BVal.double 5)]

/-- Claim C4: the Geo Reshaper pipeline first filters to exactly the
documents whose six geo fields (as named in the source's `$match`) are
present with double type — `matchStage` coincides with the spec's
`specGeoFilter` — and then adds, to every passing document, three
point-geometry fields pairing that document's longitude and latitude values
(the `*_Long`/`*_Lat` paths read by the `$addFields` expressions); a
document missing `Actor2Geo_lat` while having the other five geo fields is
excluded from the output. -/
theorem C4_geo_pipeline_filter_and_points
    (events : List GDoc) (d : GDoc) (lon1 lat1 lon2 lat2 lonA latA : BVal)
    (_hd : matchStage d = true)
    (h1 : lookupField d ("Actor1Geo_Long") = some lon1)
    (h2 : lookupField d ("Actor1Geo_Lat") = some lat1)
    (h3 : lookupField d ("Actor2Geo_Long") = some lon2)
    (h4 : lookupField d ("Actor2Geo_Lat") = some lat2)
    (h5 : lookupField d ("ActionGeo_Long") = some lonA)
    (h6 : lookupField d ("ActionGeo_Lat") = some latA) :
    (runMapgeoAggregate events).2 = (events.filter matchStage).map addStage ∧
    (∀ e, matchStage e = specGeoFilter e) ∧
    lookupField (addStage d) ("Actor1Geo") =
      some (BVal.doc [(("type"), BVal.str ("Point")),
        (("coordinates"), BVal.arr [lon1, lat1])]) ∧
    lookupField (addStage d) ("Actor2Geo") =
      some (BVal.doc [(("type"), BVal.str ("Point")),
        (("coordinates"), BVal.arr [lon2, lat2])]) ∧
    lookupField (addStage d) ("ActionGeo") =
      some (BVal.doc [(("type"), BVal.str ("Point")),
        (("coordinates"), BVal.arr [lonA, latA])]) ∧
    matchStage missingActor2LatDoc = false ∧
    (runMapgeoAggregate [missingActor2LatDoc]).2 = [] := by
  refine ⟨rfl, ?_, ?_, ?_, ?_, by decide, rfl⟩
  · intro e
    simp [matchStage, specGeoFilter, geoMatchFields, Bool.and_assoc]
  · have e1 : lookupField (addStage d) ("Actor1Geo") =
        lookupField (setField d ("Actor1Geo")
          (pointOf d ("Actor1Geo_Long") ("Actor1Geo_Lat"))) ("Actor1Geo") := by
      simp only [addStage]
      rw [lookupField_setField_ne _ _ _ _ (by decide),
        lookupField_setField_ne _ _ _ _ (by decide)]
    rw [e1, lookupField_setField_self]
    simp [pointOf, arrOfPresent, h1, h2]
  · have e2 : lookupField (addStage d) ("Actor2Geo") =
        lookupField (setField (setField d ("Actor1Geo")
            (pointOf d ("Actor1Geo_Long") ("Actor1Geo_Lat"))) ("Actor2Geo")
          (pointOf d ("Actor2Geo_Long") ("Actor2Geo_Lat"))) ("Actor2Geo") := by
      simp only [addStage]
      rw [lookupField_setField_ne _ _ _ _ (by decide)]
    rw [e2, lookupField_setField_self]
    simp [pointOf, arrOfPresent, h3, h4]
  · simp only [addStage]
    rw [lookupField_setField_self]
    simp [pointOf, arrOfPresent, h5, h6]

/-- Witness for C4 at a concrete document carrying all six filtered fields
and the three `*_Long` fields read by the adder. -/
def geoWitnessDoc : GDoc :=
  [(("ActionGeo_Lat"), BVal.double 10), (("ActionGeo_Lon"), BVal.double 11),
   (("Actor1Geo_Lat"), BVal.double 12), (("Actor1Geo_Lon"), BVal.double 13),
   (("Actor2Geo_lat"), BVal.double 14), (("Actor2Geo_Lon"), BVal.double 15),
   (("Actor1Geo_Long"), BVal.double 16), (("Actor2Geo_Long"), BVal.double 17),
   (("ActionGeo_Long"), BVal.double 18), (("Actor2Geo_Lat"), BVal.double 19)]

theorem C4_geo_pipeline_filter_and_points_witness :
    matchStage geoWitnessDoc = true ∧
    lookupField (addStage geoWitnessDoc) ("Actor1Geo") =
      some (BVal.doc [(("type"), BVal.str ("Point")),
        (("coordinates"), BVal.arr [BVal.double 16, BVal.double 12])]) ∧
    matchStage missingActor2LatDoc = false := by
  have h := C4_geo_pipeline_filter_and_points [] geoWitnessDoc
    (BVal.double 16) (BVal.double 12) (BVal.double 17) (BVal.double 19)
    (BVal.double 18) (BVal.double 10) rfl rfl rfl rfl rfl rfl rfl
  exact ⟨rfl, h.2.2.1, h.2.2.2.2.2.1⟩

/-! ## Claim C5 -/

/-- Claim C5 as stated is false: the `$out` stage at line 117 names the
string literal `"events_geo"`, not `args.collection + "_geo"`.  With
`--collection foo` the result set is still written to `events_geo`, which
differs from `foo_geo`. -/
theorem C5_counterexample :
    (runMain (fun _ => { status := 200, body := [] }) (fun _ => some []) ("T") [] []
        { mapgeo := true, collection := "foo" }).geoWritten =
      some (("events_geo"), []) ∧
    ("events_geo" : String) ≠ "foo" ++ "_geo" := by
  exact ⟨rfl, by decide⟩

/-- Claim C5 amended: the Geo Reshaper writes its result set to the fixed
collection name `events_geo` regardless of `--collection`; this coincides
with `<collection> + "_geo"` only for the default collection name
`events`. -/
theorem C5_out_collection_is_fixed
    (net : Net) (zipOpen : ZipLib) (now : String) (eventsDocs : List GDoc)
    (fs0 : FS) (args : Args) (hm : args.mapgeo = true) :
    (runMain net zipOpen now eventsDocs fs0 args).geoWritten =
      some (geoOutCollection, (eventsDocs.filter matchStage).map addStage) ∧
    (args.collection = "events" → geoOutCollection = args.collection ++ "_geo") := by
  constructor
  · simp [runMain, hm, runMapgeoAggregate]
  · intro hc
    rw [hc]
    rfl

/-- Witness for the amended C5 at a concrete invocation. -/
theorem C5_out_collection_is_fixed_witness :
    (runMain (fun _ => { status := 200, body := [] }) (fun _ => some []) ("T")
        [] [] { mapgeo := true, collection := "foo" }).geoWritten =
      some (geoOutCollection, []) ∧ geoOutCollection = "events_geo" := by
  have h := C5_out_collection_is_fixed (fun _ => { status := 200, body := [] })
    (fun _ => some []) ("T") [] [] { mapgeo := true, collection := "foo" } rfl
  exact ⟨h.1, rfl⟩

/-! ## Claim C6 -/

/-- Claim C6: for every manifest entry whose freshly downloaded archive fails
checksum verification, the program prints a warning naming the expected and
computed checksum values, skips both recording and extraction for that
entry, and continues with the remaining manifest entries; a checksum
mismatch never terminates the run (the iteration's outcome is `none`, not a
fatal error). -/
theorem C6_mismatch_warns_and_continues
    (net : Net) (zipOpen : ZipLib) (ov : Bool) (st : LoopState)
    (l sizeStr md5 zip : String) (size : Nat) (rest : List String)
    (hsplit : splitWs l = [sizeStr, md5, zip])
    (hsize : parseSize sizeStr = some size)
    (hdl : (fsExists st.fs (local_path zip) && !ov) = false)
    (hok : (net zip).status < 400)
    (hne : compute_md5 (net zip).body ≠ md5) :
    (processLine net zipOpen ov st l).2 = none ∧
    (processLine net zipOpen ov st l).1.records = st.records ∧
    ("'" ++ md5 ++ "' checksum for doesn't match computed checksum: " ++
      compute_md5 (net zip).body ++ " for " ++ local_path zip) ∈
      (processLine net zipOpen ov st l).1.output ∧
    runLoop net zipOpen ov st (l :: rest) =
      runLoop net zipOpen ov (processLine net zipOpen ov st l).1 rest := by
  have h0 : (processLine net zipOpen ov st l).2 = none := by
    simp [processLine, hsplit, hsize, fetchStep, hdl, download_file, hok,
      fsLookup_fsWrite, hne]
  refine ⟨h0, ?_, ?_, ?_⟩
  · simp [processLine, hsplit, hsize, fetchStep, hdl, download_file, hok,
      fsLookup_fsWrite, hne]
  · simp [processLine, hsplit, hsize, fetchStep, hdl, download_file, hok,
      fsLookup_fsWrite, hne]
  · rcases hP : processLine net zipOpen ov st l with ⟨st1, err⟩
    rw [hP] at h0
    simp only at h0
    subst h0
    simp [runLoop, hP]

set_option maxRecDepth 1000000 in
/-- Witness for C6 at a concrete input: body `[1]` against an all-zero
manifest checksum, with one further manifest line after it. -/
theorem C6_mismatch_warns_and_continues_witness :
    (processLine (fun _ => { status := 200, body := [1] }) (fun _ => some []) false
        { fs := [], records := [], output := [], events := [], now := "T" }
        ("1 00000000000000000000000000000000 http://e.org/f.zip")).2 = none ∧
    (processLine (fun _ => { status := 200, body := [1] }) (fun _ => some []) false
        { fs := [], records := [], output := [], events := [], now := "T" }
        ("1 00000000000000000000000000000000 http://e.org/f.zip")).1.records = [] ∧
    ("'00000000000000000000000000000000' checksum for doesn't match computed checksum: " ++
      compute_md5 [1] ++ " for " ++ local_path ("http://e.org/f.zip")) ∈
      (processLine (fun _ => { status := 200, body := [1] }) (fun _ => some []) false
        { fs := [], records := [], output := [], events := [], now := "T" }
        ("1 00000000000000000000000000000000 http://e.org/f.zip")).1.output := by
  have h := C6_mismatch_warns_and_continues (fun _ => { status := 200, body := [1] })
    (fun _ => some []) false { fs := [], records := [], output := [], events := [], now := "T" }
    ("1 00000000000000000000000000000000 http://e.org/f.zip") ("1")
    ("00000000000000000000000000000000") ("http://e.org/f.zip") 1 []
    (by decide) (by decide) (by decide) (by decide) (by decide)
  exact ⟨h.1, h.2.1, h.2.2.1⟩

/-! ## Claim C7 -/

/-- Claim C7: for every manifest entry whose derived local filename (the
final slash-separated segment of the URL) names an existing file, the fetch step with
`overwrite = false` issues no network request and leaves the working
directory — in particular the existing local file's content — entirely
unchanged; a second fetch of an already-downloaded archive is a no-op on
the file. -/
theorem C7_reuse_fetch_is_noop
    (net : Net) (ov : Bool) (size : Nat) (md5 zip : String) (st : LoopState)
    (hex : fsExists st.fs (local_path zip) = true)
    (hov : ov = false) :
    fetchStep net ov size md5 zip st =
      ({ st with output := st.output ++
          ["File '" ++ local_path zip ++ "'exists locally"] },
        Except.ok (local_path zip, false)) ∧
    (fetchStep net ov size md5 zip st).1.fs = st.fs ∧
    (fetchStep net ov size md5 zip st).1.events = st.events ∧
    fsLookup (fetchStep net ov size md5 zip st).1.fs (local_path zip) =
      fsLookup st.fs (local_path zip) := by
  subst hov
  refine ⟨?_, ?_, ?_, ?_⟩ <;> simp [fetchStep, hex]

/-- Witness for C7 at a concrete input: `f.zip` already present with content
`[9]`. -/
theorem C7_reuse_fetch_is_noop_witness :
    (fetchStep (fun _ => { status := 200, body := [1, 2] }) false 1 ("aa")
        ("http://e.org/f.zip")
        { fs := [(("f.zip"), [9])], records := [], output := [], events := [],
          now := "T" }).1.fs = [(("f.zip"), [9])] ∧
    (fetchStep (fun _ => { status := 200, body := [1, 2] }) false 1 ("aa")
        ("http://e.org/f.zip")
        { fs := [(("f.zip"), [9])], records := [], output := [], events := [],
          now := "T" }).1.events = [] ∧
    (fetchStep (fun _ => { status := 200, body := [1, 2] }) false 1 ("aa")
        ("http://e.org/f.zip")
        { fs := [(("f.zip"), [9])], records := [], output := [], events := [],
          now := "T" }).2 = Except.ok (("f.zip"), false) := by
  have h := C7_reuse_fetch_is_noop (fun _ => { status := 200, body := [1, 2] })
    false 1 ("aa") ("http://e.org/f.zip")
    { fs := [(("f.zip"), [9])], records := [], output := [], events := [], now := "T" }
    (by decide) rfl
  refine ⟨h.2.1, h.2.2.1, ?_⟩
  rw [h.1]
  rfl

/-! ## Claim C8 -/

/-- Claim C8: when `--local` names a path that is no existing file and
`--download` is requested (with `--mapgeo` absent, as in the spec's
`--local missing.txt --download` scenario), the run prints a diagnostic and
exits with status 1 having made no network request; conversely the exit
status is 0 on a geo-reshape run, on a run that resolves an existing local
manifest without `--download`, and on a download run whose loop finishes
with no fatal error. -/
theorem C8_exit_codes
    (net : Net) (zipOpen : ZipLib) (now : String) (eventsDocs : List GDoc)
    (fs0 : FS) (args : Args) (p : String) :
    (args.mapgeo = false → args.local_file = some p → fsExists fs0 p = false →
      args.download = true →
      (runMain net zipOpen now eventsDocs fs0 args).status = ExitStatus.missingLocal ∧
      exitCode (runMain net zipOpen now eventsDocs fs0 args).status = 1 ∧
      (runMain net zipOpen now eventsDocs fs0 args).events = [] ∧
      (runMain net zipOpen now eventsDocs fs0 args).output =
        ["'" ++ p ++ "' does not exist"]) ∧
    (args.mapgeo = true →
      exitCode (runMain net zipOpen now eventsDocs fs0 args).status = 0) ∧
    (args.mapgeo = false → args.local_file = some p → fsExists fs0 p = true →
      args.download = false →
      exitCode (runMain net zipOpen now eventsDocs fs0 args).status = 0) ∧
    (args.mapgeo = false → args.local_file = some p → fsExists fs0 p = true →
      args.download = true →
      ∀ text, utf8Decode ((fsLookup fs0 p).getD []) = some text →
      (runLoop net zipOpen args.overwrite
        { fs := fs0, records := [], output := [], events := [], now := now }
        (pyLines text)).2 = none →
      exitCode (runMain net zipOpen now eventsDocs fs0 args).status = 0) := by
  refine ⟨?_, ?_, ?_, ?_⟩
  · intro hm hl hex hd
    refine ⟨?_, ?_, ?_, ?_⟩ <;> simp [runMain, hm, hl, hex, exitCode]
  · intro hm
    simp [runMain, hm, exitCode]
  · intro hm hl hex hd
    simp [runMain, hm, hl, hex, downloadPhase, hd, exitCode]
  · intro hm hl hex hd text htext hloop
    rcases hR : runLoop net zipOpen args.overwrite
        { fs := fs0, records := [], output := [], events := [], now := now }
        (pyLines text) with ⟨stf, err⟩
    rw [hR] at hloop
    simp only at hloop
    subst hloop
    simp [runMain, hm, hl, hex, downloadPhase, hd, htext, hR, exitCode]

set_option maxRecDepth 1000000 in
/-- Witness for C8: part one at `--local missing.txt --download` over an
empty working directory, and the zero-exit parts at concrete successful
invocations. -/
theorem C8_exit_codes_witness :
    (runMain (fun _ => { status := 200, body := [] }) (fun _ => some []) ("T") [] []
        { local_file := some ("missing.txt"), download := true }).status =
      ExitStatus.missingLocal ∧
    (runMain (fun _ => { status := 200, body := [] }) (fun _ => some []) ("T") [] []
        { local_file := some ("missing.txt"), download := true }).events = [] ∧
    exitCode (runMain (fun _ => { status := 200, body := [] }) (fun _ => some []) ("T")
        [] [] { mapgeo := true }).status = 0 ∧
    exitCode (runMain (fun _ => { status := 200, body := [] }) (fun _ => some []) ("T")
        [] [(("m.txt"),
          strBytes ("0 d41d8cd98f00b204e9800998ecf8427e http://e.org/f.zip\n"))]
        { local_file := some ("m.txt"), download := true }).status = 0 := by
  have h1 := C8_exit_codes (fun _ => { status := 200, body := [] }) (fun _ => some [])
    ("T") [] [] { local_file := some ("missing.txt"), download := true } ("missing.txt")
  have ha := h1.1 rfl rfl (by decide) rfl
  have h2 := C8_exit_codes (fun _ => { status := 200, body := [] }) (fun _ => some [])
    ("T") [] [] { mapgeo := true } ("x")
  have h3 := C8_exit_codes (fun _ => { status := 200, body := [] }) (fun _ => some [])
    ("T") []
    [(("m.txt"), strBytes ("0 d41d8cd98f00b204e9800998ecf8427e http://e.org/f.zip\n"))]
    { local_file := some ("m.txt"), download := true } ("m.txt")
  refine ⟨ha.1, ha.2.2.1, h2.2.1 rfl, ?_⟩
  exact h3.2.2.2 rfl rfl (by decide) rfl
    ("0 d41d8cd98f00b204e9800998ecf8427e http://e.org/f.zip\n") (by decide) (by decide)

/-! ## Claim C9 -/

/-- Claim C9: for every manifest entry whose derived local archive already
exists while overwrite is false, the iteration performs no checksum
verification and inserts no `DownloadRecord` — control passes straight from
the reuse branch to the extraction phase — yet it still extracts the
unverified local archive (no network request is made either). -/
theorem C9_reuse_extracts_unverified
    (net : Net) (zipOpen : ZipLib) (ov : Bool) (st : LoopState)
    (l sizeStr md5 zip : String) (size : Nat)
    (hsplit : splitWs l = [sizeStr, md5, zip])
    (hsize : parseSize sizeStr = some size)
    (hex : fsExists st.fs (local_path zip) = true)
    (hov : ov = false) :
    processLine net zipOpen ov st l =
      extractPhase zipOpen
        { st with output := st.output ++
            ["File '" ++ local_path zip ++ "'exists locally"] }
        (local_path zip) l ∧
    (processLine net zipOpen ov st l).1.records = st.records ∧
    (processLine net zipOpen ov st l).1.events = st.events ∧
    ("Unzipping: '" ++ local_path zip ++ "'") ∈
      (processLine net zipOpen ov st l).1.output := by
  subst hov
  have hP : processLine net zipOpen false st l =
      extractPhase zipOpen
        { st with output := st.output ++
            ["File '" ++ local_path zip ++ "'exists locally"] }
        (local_path zip) l := by
    simp [processLine, hsplit, hsize, fetchStep, hex]
  refine ⟨hP, ?_, ?_, ?_⟩
  · rw [hP]
    simp [extractPhase_records]
  · rw [hP]
    simp [extractPhase_events]
  · rw [hP]
    exact extractPhase_output_mem zipOpen _ (local_path zip) l

/-- Witness for C9 at a concrete input: `f.zip` is present with content `[9]`
whose digest does not match the manifest's all-zero checksum, and extraction
still happens (the zip oracle yields one entry, which is written). -/
theorem C9_reuse_extracts_unverified_witness :
    (processLine (fun _ => { status := 200, body := [1] })
        (fun _ => some [(("a.csv"), [104, 105])]) false
        { fs := [(("f.zip"), [9])], records := [], output := [], events := [],
          now := "T" }
        ("1 00000000000000000000000000000000 http://e.org/f.zip")).1.records = [] ∧
    (processLine (fun _ => { status := 200, body := [1] })
        (fun _ => some [(("a.csv"), [104, 105])]) false
        { fs := [(("f.zip"), [9])], records := [], output := [], events := [],
          now := "T" }
        ("1 00000000000000000000000000000000 http://e.org/f.zip")).1.events = [] ∧
    ("Unzipping: '" ++ local_path ("http://e.org/f.zip") ++ "'") ∈
      (processLine (fun _ => { status := 200, body := [1] })
        (fun _ => some [(("a.csv"), [104, 105])]) false
        { fs := [(("f.zip"), [9])], records := [], output := [], events := [],
          now := "T" }
        ("1 00000000000000000000000000000000 http://e.org/f.zip")).1.output ∧
    fsLookup (processLine (fun _ => { status := 200, body := [1] })
        (fun _ => some [(("a.csv"), [104, 105])]) false
        { fs := [(("f.zip"), [9])], records := [], output := [], events := [],
          now := "T" }
        ("1 00000000000000000000000000000000 http://e.org/f.zip")).1.fs
      ("a.csv") = some [104, 105] := by
  have h := C9_reuse_extracts_unverified (fun _ => { status := 200, body := [1] })
    (fun _ => some [(("a.csv"), [104, 105])]) false
    { fs := [(("f.zip"), [9])], records := [], output := [], events := [], now := "T" }
    ("1 00000000000000000000000000000000 http://e.org/f.zip") ("1")
    ("00000000000000000000000000000000") ("http://e.org/f.zip") 1
    (by decide) (by decide) (by decide) rfl
  exact ⟨h.2.1, h.2.2.1, h.2.2.2, by rw [h.1]; decide⟩

/-! ## Claim C10 -/

/-- Claim C10: for a freshly downloaded and checksum-verified entry, the
`DownloadRecord` insert into the `files` collection happens strictly before
extraction — the record is appended to the collection whatever extraction
does — so if extraction then fails fatally (for example on non-UTF-8 entry
content) the already-inserted record persists in the final state; the
record store is not rolled back. -/
theorem C10_insert_survives_extraction_failure
    (net : Net) (zipOpen : ZipLib) (ov : Bool) (st : LoopState)
    (l sizeStr md5 zip : String) (size : Nat)
    (hsplit : splitWs l = [sizeStr, md5, zip])
    (hsize : parseSize sizeStr = some size)
    (hdl : (fsExists st.fs (local_path zip) && !ov) = false)
    (hok : (net zip).status < 400)
    (hmd : compute_md5 (net zip).body = md5) :
    (processLine net zipOpen ov st l).1.records = st.records ++
      [{ ts := st.now, remote := zip, local_file := local_path zip,
         size := size, md5 := md5 }] ∧
    (∀ e, (processLine net zipOpen ov st l).2 = some e →
      ({ ts := st.now, remote := zip, local_file := local_path zip,
         size := size, md5 := md5 } : DownloadRecord) ∈
        (processLine net zipOpen ov st l).1.records) := by
  have h1 : (processLine net zipOpen ov st l).1.records = st.records ++
      [{ ts := st.now, remote := zip, local_file := local_path zip,
         size := size, md5 := md5 }] := by
    simp [processLine, hsplit, hsize, fetchStep, hdl, download_file, hok,
      fsLookup_fsWrite, hmd, extractPhase_records]
  refine ⟨h1, fun e _ => ?_⟩
  rw [h1]
  simp

set_option maxRecDepth 1000000 in
/-- Witness for C10 at a concrete input: the verified archive's single entry
`a.csv` holds the invalid-UTF-8 byte `0xFF`, so extraction fails fatally,
yet the inserted record is still in the final state. -/
theorem C10_insert_survives_extraction_failure_witness :
    (processLine (fun _ => { status := 200, body := [] })
        (fun _ => some [(("a.csv"), [255])]) false
        { fs := [], records := [], output := [], events := [], now := "T" }
        ("0 d41d8cd98f00b204e9800998ecf8427e http://e.org/f.zip")).2 =
      some (Fatal.decodeErr ("a.csv")) ∧
    ({ ts := "T", remote := "http://e.org/f.zip", local_file := "f.zip",
       size := 0, md5 := "d41d8cd98f00b204e9800998ecf8427e" } : DownloadRecord) ∈
      (processLine (fun _ => { status := 200, body := [] })
        (fun _ => some [(("a.csv"), [255])]) false
        { fs := [], records := [], output := [], events := [], now := "T" }
        ("0 d41d8cd98f00b204e9800998ecf8427e http://e.org/f.zip")).1.records := by
  have h := C10_insert_survives_extraction_failure
    (fun _ => { status := 200, body := [] }) (fun _ => some [(("a.csv"), [255])]) false
    { fs := [], records := [], output := [], events := [], now := "T" }
    ("0 d41d8cd98f00b204e9800998ecf8427e http://e.org/f.zip") ("0")
    ("d41d8cd98f00b204e9800998ecf8427e") ("http://e.org/f.zip") 0
    (by decide) (by decide) (by decide) (by decide) (by decide)
  exact ⟨by decide, h.2 (Fatal.decodeErr ("a.csv")) (by decide)⟩
